import Mathlib

/-!
Shallow embedding of src/extensions/sourcegraph/src/components/SearchCommand.tsx:
the search session (useSearch), the per-match summary mapping (SearchResultItem),
drilldown query construction (makeDrilldownAction, escapeRegexp), multi-result
sub-item URL derivation (MultiResultView / urlWithLineNumber), and detail
rendering (ResultView, renderBlob).
-/

namespace SearchModel

/-- State managed by useSearch (SearchCommand.tsx lines 542-555). Search results
and suggestions are opaque to the session (it only accumulates them), so their
payloads are modelled by numeric identifiers. The summary is a string or null in
the source, hence Option String; the initial state (line 550-555) uses the empty
string for the summary while a reset (line 564-570) uses null. -/
structure SessionState where
  results : List Nat
  suggestions : List Nat
  summary : Option String
  isLoading : Bool
deriving DecidableEq

def initialSessionState : SessionState :=
  { results := [], suggestions := [], summary := some "", isLoading := false }

/-- Events the transport delivers to the four callbacks handed to performSearch
(lines 571-594). An alert carries the title and optional description the code
passes to the toast. -/
inductive SearchEvent where
  | results (batch : List Nat)
  | suggestions (batch : List Nat) (pushToTop : Bool)
  | alert (title : String) (description : Option String)
  | progress (matchCount : Nat) (duration : String)
deriving DecidableEq

/-- One step of the session: the reset at the top of search() (lines 564-570),
a callback invocation tagged with the generation whose performSearch issued it,
or the settling of that generation's performSearch promise — resolution reaches
line 596-599, rejection is caught at line 600-607. -/
inductive SessionAction where
  | startSearch (gen : Nat)
  | deliver (gen : Nat) (e : SearchEvent)
  | complete (gen : Nat)
  | fail (gen : Nat) (err : String)
deriving DecidableEq

/-- The setState folds of the four callbacks (lines 571-594). -/
def foldEvent (s : SessionState) : SearchEvent → SessionState
  | .results batch => { s with results := s.results ++ batch }
  | .suggestions batch pushToTop =>
      { s with suggestions :=
          if pushToTop then batch ++ s.suggestions else s.suggestions ++ batch }
  | .alert _ _ => s
  | .progress matchCount duration =>
      { s with summary := some (toString matchCount ++ " results in " ++ duration) }

/-- The SessionState transition of one session action. The generation tag is
never consulted: the callbacks at lines 571-594 and the continuation/catch at
lines 596-607 fold whatever the transport delivers. -/
def applyAction (s : SessionState) : SessionAction → SessionState
  | .startSearch _ =>
      { results := [], suggestions := [], summary := none, isLoading := true }
  | .deliver _ e => foldEvent s e
  | .complete _ => { s with isLoading := false }
  | .fail _ _ => { s with isLoading := false }

/-- Argument triple handed to ExpandableErrorToast. -/
structure Toast where
  title : String
  subtitle : String
  detail : String
deriving DecidableEq

/-- Toasts shown while processing one action: onAlert (lines 586-588) and the
catch block (line 601). No other action shows a toast. -/
def actionToasts : SessionAction → List Toast
  | .deliver _ (.alert title description) => [⟨"Alert", title, description.getD ""⟩]
  | .fail _ err => [⟨"Unexpected error", "Search failed", err⟩]
  | _ => []

def runTrace (acts : List SessionAction) : SessionState :=
  acts.foldl applyAction initialSessionState

def traceToasts (acts : List SessionAction) : List Toast :=
  acts.foldr (fun a acc => actionToasts a ++ acc) []

/-- Traces the transport can produce: generations start in strictly increasing
order and events only come from generations that have started. A superseded
generation may still deliver late: aborting the token does not guarantee
already-enqueued events are discarded by the transport. -/
def wfGo (started : List Nat) (cur : Nat) : List SessionAction → Bool
  | [] => true
  | .startSearch g :: rest => decide (cur < g) && wfGo (g :: started) g rest
  | .deliver g _ :: rest => started.contains g && wfGo started cur rest
  | .complete g :: rest => started.contains g && wfGo started cur rest
  | .fail g _ :: rest => started.contains g && wfGo started cur rest

def wellFormedB (acts : List SessionAction) : Bool := wfGo [] 0 acts

/-- Drop every delivery whose generation is not the most recently started one:
the trace as it would fold if the session checked, before folding an event, that
the event's generation is still current. -/
def purgeStale (cur : Nat) : List SessionAction → List SessionAction
  | [] => []
  | .startSearch g :: rest => .startSearch g :: purgeStale g rest
  | .deliver g e :: rest =>
      if g = cur then .deliver g e :: purgeStale cur rest else purgeStale cur rest
  | .complete g :: rest => .complete g :: purgeStale cur rest
  | .fail g err :: rest => .fail g err :: purgeStale cur rest

/-- A generation is superseded when a later search() started a larger one. -/
def supersededB (g : Nat) (acts : List SessionAction) : Bool :=
  acts.any fun a =>
    match a with
    | .startSearch g2 => decide (g < g2)
    | _ => false

/-- C1 counterexample: the claim that only events of the most recent generation
ever mutate the final SessionState (equivalently, that folding a trace equals
folding it with stale deliveries purged) is false: in the well-formed trace
where generation 1 starts, generation 2 supersedes it, and generation 1's
onResults is then delivered late, the stale batch lands in the final state. -/
theorem stale_delivery_mutates_state :
    ¬ (∀ acts : List SessionAction, wellFormedB acts = true →
        runTrace acts = runTrace (purgeStale 0 acts)) := by
  intro h
  exact absurd
    (h [.startSearch 1, .startSearch 2, .deliver 1 (.results [7])] (by decide))
    (by decide)

/-- C1 (amended): the session performs no generation check before folding; the
state transition for a delivered event, a completion, or a failure is
independent of the generation tag, so a late event from a superseded generation
mutates SessionState exactly as a current-generation event would. Stale-write
prevention rests entirely on the transport honoring the abort signal. -/
theorem fold_ignores_generation :
    ∀ (s : SessionState) (g g2 : Nat) (e : SearchEvent) (err : String),
      applyAction s (.deliver g e) = applyAction s (.deliver g2 e)
      ∧ applyAction s (.complete g) = applyAction s (.complete g2)
      ∧ applyAction s (.fail g err) = applyAction s (.fail g2 err) :=
  fun _ _ _ _ _ => ⟨rfl, rfl, rfl⟩

/-- C2 counterexample: a superseded generation's outcome is not silently
discarded. In the trace where generation 2 has superseded generation 1, letting
generation 1's performSearch settle still mutates SessionState (its completion
flips isLoading to false underneath generation 2), refuting the no-mutation,
no-toast claim. -/
theorem superseded_outcome_not_silent :
    ¬ (∀ (acts : List SessionAction) (g : Nat) (err : String),
        wellFormedB acts = true → supersededB g acts = true →
        runTrace (acts ++ [.complete g]) = runTrace acts
        ∧ runTrace (acts ++ [.fail g err]) = runTrace acts
        ∧ traceToasts (acts ++ [.fail g err]) = traceToasts acts) := by
  intro h
  exact absurd
    (h [.startSearch 1, .startSearch 2] 1 "AbortError" (by decide) (by decide)).1
    (by decide)

/-- C2 (amended): the session has no cancellation-specific branch. A superseded
generation's settling folds exactly like a current one: a completion sets
isLoading to false, a rejection sets isLoading to false and additionally shows
the generic error toast carrying the failure detail. -/
theorem superseded_outcome_folds_like_current :
    ∀ (s : SessionState) (g : Nat) (err : String),
      applyAction s (.complete g) = { s with isLoading := false }
      ∧ applyAction s (.fail g err) = { s with isLoading := false }
      ∧ actionToasts (.fail g err) = [⟨"Unexpected error", "Search failed", err⟩]
      ∧ actionToasts (.complete g) = [] :=
  fun _ _ _ => ⟨rfl, rfl, rfl, rfl⟩

/-- C5: on a stream failure the session sets isLoading to false, keeps the
already-accumulated results and suggestions (and the summary), and shows a
user-visible error toast carrying the failure detail. -/
theorem failure_sets_terminal_state_and_toast :
    ∀ (s : SessionState) (g : Nat) (err : String),
      (applyAction s (.fail g err)).isLoading = false
      ∧ (applyAction s (.fail g err)).results = s.results
      ∧ (applyAction s (.fail g err)).suggestions = s.suggestions
      ∧ (applyAction s (.fail g err)).summary = s.summary
      ∧ actionToasts (.fail g err) = [⟨"Unexpected error", "Search failed", err⟩] :=
  fun _ _ _ => ⟨rfl, rfl, rfl, rfl, rfl⟩

/-- C10: every event fold mutates only its designated SessionState field:
onResults only results, onSuggestions only suggestions, onProgress only summary,
completion and failure only isLoading, and onAlert mutates nothing. -/
theorem fold_frame_conditions :
    ∀ (s : SessionState) (g : Nat),
      (∀ batch : List Nat,
        (applyAction s (.deliver g (.results batch))).suggestions = s.suggestions
        ∧ (applyAction s (.deliver g (.results batch))).summary = s.summary
        ∧ (applyAction s (.deliver g (.results batch))).isLoading = s.isLoading)
      ∧ (∀ (batch : List Nat) (top : Bool),
        (applyAction s (.deliver g (.suggestions batch top))).results = s.results
        ∧ (applyAction s (.deliver g (.suggestions batch top))).summary = s.summary
        ∧ (applyAction s (.deliver g (.suggestions batch top))).isLoading = s.isLoading)
      ∧ (∀ (n : Nat) (d : String),
        (applyAction s (.deliver g (.progress n d))).results = s.results
        ∧ (applyAction s (.deliver g (.progress n d))).suggestions = s.suggestions
        ∧ (applyAction s (.deliver g (.progress n d))).isLoading = s.isLoading)
      ∧ (∀ (t : String) (d : Option String),
        applyAction s (.deliver g (.alert t d)) = s)
      ∧ ((applyAction s (.complete g)).results = s.results
        ∧ (applyAction s (.complete g)).suggestions = s.suggestions
        ∧ (applyAction s (.complete g)).summary = s.summary)
      ∧ (∀ err : String,
        (applyAction s (.fail g err)).results = s.results
        ∧ (applyAction s (.fail g err)).suggestions = s.suggestions
        ∧ (applyAction s (.fail g err)).summary = s.summary) :=
  fun _ _ =>
    ⟨fun _ => ⟨rfl, rfl, rfl⟩, fun _ _ => ⟨rfl, rfl, rfl⟩, fun _ _ => ⟨rfl, rfl, rfl⟩,
     fun _ _ => rfl, ⟨rfl, rfl, rfl⟩, fun _ => ⟨rfl, rfl, rfl⟩⟩

/-- One line match of a ContentMatch (stream-search/stream types as used at
lines 260-268 and 330-344). -/
structure LineMatch where
  line : String
  lineNumber : Nat
deriving DecidableEq

/-- A URL, structured as its base plus its query parameters in order: the model
of the platform URL / URLSearchParams objects used by urlWithLineNumber. -/
structure SgURL where
  base : String
  params : List (String × String)
deriving DecidableEq

/-- One symbol of a SymbolMatch (used at lines 269-277 and 346-361). -/
structure SymbolEntry where
  name : String
  containerName : String
  kind : String
  url : SgURL
deriving DecidableEq

/-- The tagged match union consumed by the switch at lines 218-278, with the
fields that switch reads. The repo variant's private flag is named isPrivate
because private is a Lean keyword. -/
inductive Match where
  | repo (repository : String) (description : Option String) (repoStars : Option Nat)
      (fork : Bool) (archived : Bool) (isPrivate : Bool) (branches : List String)
  | commit (repository : String) (message : String) (authorName : String)
      (authorDate : String) (oid : String) (repoStars : Option Nat)
  | path (repository : String) (path : String) (commit : Option String)
      (repoStars : Option Nat)
  | content (repository : String) (path : String) (lineMatches : List LineMatch)
      (repoStars : Option Nat)
  | symbol (repository : String) (path : String) (symbols : List SymbolEntry)
      (repoStars : Option Nat)
deriving DecidableEq

inductive IconSource where
  | dot
  | circle
  | xmarkCircle
  | memoryChip
  | textDocument
  | text
  | link
deriving DecidableEq

inductive TintColor where
  | colorDefault
  | colorPrivate
deriving DecidableEq

/-- The display fields SearchResultItem computes (lines 212-283): title,
subtitle, the single accessory's text and star-icon flag, and the icon. -/
structure ItemSummary where
  title : String
  subtitle : String
  accessoryText : String
  accessoryStarIcon : Bool
  iconSource : IconSource
  iconTint : TintColor
deriving DecidableEq

/-- JavaScript truthiness of an optional number: undefined and 0 are falsy. -/
def numTruthy : Option Nat → Bool
  | some n => n != 0
  | none => false

/-- JavaScript Array.join(sep). -/
def joinSep (sep : String) : List String → String
  | [] => ""
  | [x] => x
  | x :: y :: rest => x ++ sep ++ joinSep sep (y :: rest)

/-- The switch at lines 217-278 of SearchResultItem. The accessory text starts
as the repository (line 214) and is only overwritten in the repo branch; the
icon starts as a default-tinted dot (line 217), the repo branch upgrades it for
fork then archived (so archived wins) and tints it for private repos. -/
def summarize : Match → ItemSummary
  | .repo repository description repoStars fork archived isPrivate _branches =>
      { title := repository
        subtitle := description.getD ""
        accessoryText := if numTruthy repoStars then toString (repoStars.getD 0) else ""
        accessoryStarIcon := numTruthy repoStars
        iconSource :=
          if archived then .xmarkCircle else if fork then .circle else .dot
        iconTint := if isPrivate then .colorPrivate else .colorDefault }
  | .commit repository message _authorName authorDate _oid _repoStars =>
      { title := message
        subtitle := authorDate
        accessoryText := repository
        accessoryStarIcon := false
        iconSource := .memoryChip
        iconTint := .colorDefault }
  | .path repository path _commit _repoStars =>
      { title := path
        subtitle := ""
        accessoryText := repository
        accessoryStarIcon := false
        iconSource := .textDocument
        iconTint := .colorDefault }
  | .content repository path lineMatches _repoStars =>
      { title := joinSep " ... " (lineMatches.map fun l => l.line.trim)
        subtitle := path
        accessoryText := repository
        accessoryStarIcon := false
        iconSource := .text
        iconTint := .colorDefault }
  | .symbol repository path symbols _repoStars =>
      { title := joinSep ", " (symbols.map fun s => s.name)
        subtitle := path
        accessoryText := repository
        accessoryStarIcon := false
        iconSource := .link
        iconTint := .colorDefault }

/-- C3 counterexample: the claimed accessory rule for Repo — star count whenever
repoStars is present, else empty — fails at a present star count of zero: the
code tests JavaScript truthiness, so a repo with repoStars equal to 0 renders an
empty accessory, not the string 0. -/
theorem zero_stars_accessory_empty :
    ¬ (∀ (st : Option Nat) (r : String),
        (summarize (.repo r none st false false false [])).accessoryText
          = (match st with
             | some n => toString n
             | none => "")) := by
  intro h
  exact absurd (h (some 0) "r") (by decide)

/-- C3 (amended): the per-variant summary mapping. Repo: title = repository,
subtitle = description or empty, accessory = star count if present and nonzero
else empty, archived taking icon precedence over fork. Commit: title = message,
subtitle = the raw authorDate. Path: title = path, no subtitle. Content: title =
the per-line-trimmed line matches joined with the fixed separator. Symbol:
title = comma-joined symbol names. The match is exhaustive over the five
variants with no default branch. -/
theorem summarize_per_variant :
    ∀ (r : String) (d : Option String) (st : Option Nat) (fk pv : Bool)
      (br : List String) (msg an ad oid p : String) (cm : Option String)
      (lms : List LineMatch) (syms : List SymbolEntry),
      (summarize (.repo r d st fk false pv br)).title = r
      ∧ (summarize (.repo r d st fk false pv br)).subtitle = d.getD ""
      ∧ (summarize (.repo r d st fk false pv br)).accessoryText
          = (match st with
             | some n => if n = 0 then "" else toString n
             | none => "")
      ∧ (summarize (.repo r d st fk true pv br)).iconSource = .xmarkCircle
      ∧ (summarize (.repo r d st true false pv br)).iconSource = .circle
      ∧ (summarize (.commit r msg an ad oid st)).title = msg
      ∧ (summarize (.commit r msg an ad oid st)).subtitle = ad
      ∧ (summarize (.path r p cm st)).title = p
      ∧ (summarize (.path r p cm st)).subtitle = ""
      ∧ (summarize (.content r p lms st)).title
          = joinSep " ... " (lms.map fun l => l.line.trim)
      ∧ (summarize (.content r p lms st)).subtitle = p
      ∧ (summarize (.symbol r p syms st)).title
          = joinSep ", " (syms.map fun s => s.name)
      ∧ (summarize (.symbol r p syms st)).subtitle = p := by
  intro r d st fk pv br msg an ad oid p cm lms syms
  refine ⟨rfl, rfl, ?_, rfl, rfl, rfl, rfl, rfl, rfl, rfl, rfl, rfl, rfl⟩
  cases st with
  | none => rfl
  | some n =>
    by_cases h : n = 0
    · simp [summarize, numTruthy, h]
    · simp [summarize, numTruthy, h]

/-- Membership test for the character class of regexpRe (line 162): the query
metacharacters, with the path separator deliberately absent. -/
def isQueryMeta (c : Char) : Bool :=
  decide (c ∈ ['-', '\\', '^', '$', '*', '+', '?', '.', '(', ')', '|', '[', ']',
               '\x7b', '\x7d'])

/-- text.replace(regexpRe, two-character backslash substitution) at the level of
the character list: the global replace of a single-character class prefixes each
matching character with a backslash. -/
def escList : List Char → List Char
  | [] => []
  | c :: rest => if isQueryMeta c then '\\' :: c :: escList rest else c :: escList rest

/-- escapeRegexp (lines 164-166). -/
def escapeRegexp (text : String) : String := ⟨escList text.data⟩

theorem escList_append (l₁ l₂ : List Char) :
    escList (l₁ ++ l₂) = escList l₁ ++ escList l₂ := by
  induction l₁ with
  | nil => rfl
  | cons c rest ih =>
    by_cases h : isQueryMeta c
    · simp [escList, h, ih]
    · simp [escList, h, ih]

/-- C8: escapeRegexp acts characterwise — it distributes over concatenation,
prefixes exactly the fifteen metacharacters with a backslash, and leaves every
other character, including the path separator, unchanged; in particular the
spec's example and a slash-bearing path come out as claimed. -/
theorem escapeRegexp_spec :
    (∀ s t : String, escapeRegexp (s ++ t) = escapeRegexp s ++ escapeRegexp t)
    ∧ (∀ c : Char,
        escapeRegexp (String.singleton c)
          = if c ∈ ['-', '\\', '^', '$', '*', '+', '?', '.', '(', ')', '|', '[',
                    ']', '\x7b', '\x7d']
            then String.mk ['\\', c] else String.singleton c)
    ∧ escapeRegexp "a.b*c" = "a\\.b\\*c"
    ∧ escapeRegexp "a/b" = "a/b" := by
  refine ⟨?_, ?_, by decide, by decide⟩
  · intro s t
    cases s with
    | mk ds =>
      cases t with
      | mk dt =>
        show String.mk (escList (ds ++ dt)) = String.mk (escList ds ++ escList dt)
        rw [escList_append]
  · intro c
    by_cases h : c ∈ ['-', '\\', '^', '$', '*', '+', '?', '.', '(', ')', '|', '[',
                      ']', '\x7b', '\x7d']
    · simp only [h, if_true]
      show String.mk (escList [c]) = String.mk ['\\', c]
      have he : escList [c] = ['\\', c] := by simp [escList, isQueryMeta, h]
      rw [he]
    · simp only [h, if_false]
      show String.mk (escList [c]) = String.singleton c
      have he : escList [c] = [c] := by simp [escList, isQueryMeta, h]
      rw [he]
      rfl

/-- The opts argument of makeDrilldownAction (lines 168-172). -/
structure DrilldownOpts where
  repo : Option String
  revision : Option String
  file : Option String

/-- The clauses array built at lines 173-183: a repo clause (with the revision
appended verbatim when truthy) when the repo is truthy, then a file clause when
the file is truthy. A JavaScript string is truthy exactly when it is nonempty. -/
def drilldownClauses (o : DrilldownOpts) : List String :=
  let repoClauses : List String :=
    match o.repo with
    | some r =>
        if r = "" then []
        else
          [(match o.revision with
            | some rv =>
                if rv = "" then "r:^" ++ escapeRegexp r ++ "$"
                else "r:^" ++ escapeRegexp r ++ "$" ++ "@" ++ rv
            | none => "r:^" ++ escapeRegexp r ++ "$")]
    | none => []
  let fileClauses : List String :=
    match o.file with
    | some f => if f = "" then [] else ["f:" ++ escapeRegexp f]
    | none => []
  repoClauses ++ fileClauses

/-- clauses.join(one space) at line 192 (the drilldown search text, without the
trailing space the onAction handler appends). -/
def buildDrilldownClauses (o : DrilldownOpts) : String :=
  joinSep " " (drilldownClauses o)

/-- The clause list as claim C7 words it: a repo clause whenever repo is
present (revision appended whenever present), a file clause whenever file is
present. Follows the claim's words, for comparison with drilldownClauses. -/
def claimedDrilldownClauses (o : DrilldownOpts) : List String :=
  (match o.repo with
   | some r =>
       [("r:^" ++ escapeRegexp r ++ "$")
         ++ (match o.revision with
             | some rv => "@" ++ rv
             | none => "")]
   | none => []) ++
  (match o.file with
   | some f => ["f:" ++ escapeRegexp f]
   | none => [])

/-- C7 counterexample: presence is not enough — the code tests JavaScript
truthiness, so a present but empty repo emits no clause at all, while the claim
requires the clause with an empty escaped repository between the anchors. -/
theorem empty_repo_emits_no_clause :
    ¬ (∀ o : DrilldownOpts, drilldownClauses o = claimedDrilldownClauses o) := by
  intro h
  exact absurd (h ⟨some "", none, none⟩) (by decide)

/-- C7 (amended): for nonempty fragments the drilldown string is exactly as
claimed — the repo clause anchors the escaped repository, the revision is
appended verbatim without escaping, the file clause escapes the file, and the
emitted clauses are joined with exactly one space in repo-then-file order. -/
theorem drilldown_clauses_spec :
    ∀ (r rv f : String), r ≠ "" → rv ≠ "" → f ≠ "" →
      buildDrilldownClauses ⟨some r, none, none⟩ = "r:^" ++ escapeRegexp r ++ "$"
      ∧ buildDrilldownClauses ⟨some r, some rv, none⟩
          = "r:^" ++ escapeRegexp r ++ "$" ++ "@" ++ rv
      ∧ buildDrilldownClauses ⟨some r, some rv, some f⟩
          = "r:^" ++ escapeRegexp r ++ "$" ++ "@" ++ rv ++ " " ++ ("f:" ++ escapeRegexp f)
      ∧ buildDrilldownClauses ⟨none, some rv, some f⟩ = "f:" ++ escapeRegexp f
      ∧ buildDrilldownClauses ⟨some r, none, some f⟩
          = "r:^" ++ escapeRegexp r ++ "$" ++ " " ++ ("f:" ++ escapeRegexp f)
      ∧ buildDrilldownClauses ⟨none, none, none⟩ = "" := by
  intro r rv f hr hrv hf
  refine ⟨?_, ?_, ?_, ?_, ?_, rfl⟩ <;>
    simp only [buildDrilldownClauses, drilldownClauses, if_neg hr, if_neg hrv,
      if_neg hf, joinSep, List.singleton_append, List.nil_append, List.append_nil]

/-- C7 witness: the amended statement at the spec's own example values. -/
theorem drilldown_clauses_spec_witness :
    ("github.com/a/b" : String) ≠ ""
    ∧ buildDrilldownClauses ⟨some "github.com/a/b", none, none⟩
        = "r:^github\\.com/a/b$"
    ∧ buildDrilldownClauses ⟨some "github.com/a/b", some "v1", none⟩
        = "r:^github\\.com/a/b$@v1"
    ∧ buildDrilldownClauses ⟨some "github.com/a/b", some "v1", some "x.go"⟩
        = "r:^github\\.com/a/b$@v1 f:x\\.go" := by
  have h := drilldown_clauses_spec "github.com/a/b" "v1" "x.go"
    (by decide) (by decide) (by decide)
  refine ⟨by decide, ?_, ?_, ?_⟩
  · rw [h.1]; decide
  · rw [h.2.1]; decide
  · rw [h.2.2.1]; decide

/-- URLSearchParams.delete semantics used by set: drop every pair with the
given name. -/
def removeParam (ps : List (String × String)) (n : String) : List (String × String) :=
  ps.filter fun q => q.1 != n

/-- URLSearchParams.set: overwrite the first pair with the given name and drop
the other pairs with that name; append at the end when the name is absent. -/
def setParam (ps : List (String × String)) (n v : String) : List (String × String) :=
  match ps with
  | [] => [(n, v)]
  | (k, w) :: rest =>
      if k = n then (n, v) :: removeParam rest n else (k, w) :: setParam rest n v

/-- Lexicographic comparison of character lists: the code-unit comparison
URLSearchParams.sort applies to parameter names. -/
def ltChars : List Char → List Char → Bool
  | [], [] => false
  | [], _ :: _ => true
  | _ :: _, [] => false
  | a :: as, b :: bs => if a < b then true else if b < a then false else ltChars as bs

/-- Name order for URLSearchParams.sort. -/
def paramLt (a b : String) : Bool := ltChars a.data b.data

/-- Stable insertion step for URLSearchParams.sort: walk past strictly smaller
names so that equal names keep their relative order. -/
def insertParam (p : String × String) : List (String × String) → List (String × String)
  | [] => [p]
  | q :: rest => if paramLt q.1 p.1 then q :: insertParam p rest else p :: q :: rest

theorem ltChars_irrefl (l : List Char) : ltChars l l = false := by
  induction l with
  | nil => rfl
  | cons a as ih => simp [ltChars, lt_irrefl, ih]

theorem ltChars_asymm (l₁ l₂ : List Char) (h : ltChars l₁ l₂ = true) :
    ltChars l₂ l₁ = false := by
  induction l₁ generalizing l₂ with
  | nil =>
    cases l₂ with
    | nil => exact absurd h (by simp [ltChars])
    | cons b bs => rfl
  | cons a as ih =>
    cases l₂ with
    | nil => exact absurd h (by simp [ltChars])
    | cons b bs =>
      by_cases hab : a < b
      · have hba : ¬ b < a := lt_asymm hab
        simp [ltChars, hab, hba]
      · by_cases hba : b < a
        · simp [ltChars, hab, hba] at h
        · simp [ltChars, hab, hba] at h ⊢
          exact ih bs h

/-- URLSearchParams.sort: stable sort of the pairs by name. -/
def sortParams (ps : List (String × String)) : List (String × String) :=
  ps.foldr insertParam []

/-- urlWithLineNumber (lines 319-326): set an L-prefixed line-number parameter
with an empty value on the parent URL, then sort all query parameters. -/
def urlWithLineNumber (u : SgURL) (line : Nat) : SgURL :=
  ⟨u.base, sortParams (setParam u.params ("L" ++ toString line) "")⟩

/-- The URLs behind the sub-items of MultiResultView (lines 329-362): one per
line match for a content match, each derived from the parent result URL; one per
symbol for a symbol match, taken from the symbol's own url field. Other match
types have no multi view. -/
def multiViewItemUrls (resultUrl : SgURL) : Match → List SgURL
  | .content _ _ lineMatches _ =>
      lineMatches.map fun l => urlWithLineNumber resultUrl l.lineNumber
  | .symbol _ _ symbols _ => symbols.map fun s => s.url
  | _ => []

/-- C4 counterexample: sorting does not put the anchor first for every parent
URL — a parent URL with a query parameter named B sorts that parameter before
the L5 anchor, so the anchor is not the first parameter of the derived URL. -/
theorem anchor_not_always_first :
    ¬ (∀ (u : SgURL) (line : Nat),
        (urlWithLineNumber u line).params.head? = some ("L" ++ toString line, "")) := by
  intro h
  exact absurd (h ⟨"https://example.com/search", [("B", "1")]⟩ 5) (by decide)

theorem setParam_all_gt (ps : List (String × String)) (n v : String)
    (h : ∀ q ∈ ps, paramLt n q.1 = true) : setParam ps n v = ps ++ [(n, v)] := by
  induction ps with
  | nil => rfl
  | cons q rest ih =>
    have hq : paramLt n q.1 = true := h q (List.mem_cons_self q rest)
    have hne : ¬ (q.1 = n) := by
      intro e
      rw [e] at hq
      exact absurd hq (by simp [paramLt, ltChars_irrefl])
    simp [setParam, hne, ih fun x hx => h x (List.mem_cons_of_mem q hx)]

theorem sortParams_append_min (ps : List (String × String)) (p : String × String)
    (h : ∀ q ∈ ps, paramLt p.1 q.1 = true) : sortParams (ps ++ [p]) = p :: sortParams ps := by
  induction ps with
  | nil => rfl
  | cons q rest ih =>
    have hpq : paramLt p.1 q.1 = true := h q (List.mem_cons_self q rest)
    calc sortParams ((q :: rest) ++ [p])
        = insertParam q (sortParams (rest ++ [p])) := rfl
      _ = insertParam q (p :: sortParams rest) := by
          rw [ih fun x hx => h x (List.mem_cons_of_mem q hx)]
      _ = p :: insertParam q (sortParams rest) := by simp [insertParam, hpq]
      _ = p :: sortParams (q :: rest) := rfl

/-- C4 (amended): the derived sub-item URL sets the L-anchor parameter and then
sorts all query parameters by name, so the anchor comes first exactly when every
existing parameter name of the parent URL is lexicographically greater than the
anchor name (as the utm parameters are), not for every parent URL; content
sub-items are derived this way from the parent result URL, while symbol
sub-items use their own pre-resolved URL with no derivation. -/
theorem anchor_first_when_others_greater :
    (∀ (u : SgURL) (line : Nat),
      (∀ q ∈ u.params, paramLt ("L" ++ toString line) q.1 = true) →
      (urlWithLineNumber u line).params
        = ("L" ++ toString line, "") :: sortParams u.params)
    ∧ (∀ (resultUrl : SgURL) (r p : String) (lms : List LineMatch) (st : Option Nat),
      multiViewItemUrls resultUrl (.content r p lms st)
        = lms.map fun l => urlWithLineNumber resultUrl l.lineNumber)
    ∧ (∀ (resultUrl : SgURL) (r p : String) (syms : List SymbolEntry) (st : Option Nat),
      multiViewItemUrls resultUrl (.symbol r p syms st) = syms.map fun s => s.url) := by
  refine ⟨?_, fun _ _ _ _ _ => rfl, fun _ _ _ _ _ => rfl⟩
  intro u line h
  show sortParams (setParam u.params ("L" ++ toString line) "")
      = ("L" ++ toString line, "") :: sortParams u.params
  rw [setParam_all_gt u.params _ "" h]
  exact sortParams_append_min u.params _ h

/-- C4 witness: the amended statement at a parent URL carrying one utm
parameter, whose name sorts after the L12 anchor. -/
theorem anchor_first_when_others_greater_witness :
    (∀ q ∈ ([("utm_source", "raycast")] : List (String × String)),
      paramLt ("L" ++ toString 12) q.1 = true)
    ∧ (urlWithLineNumber ⟨"https://sg.example/x", [("utm_source", "raycast")]⟩ 12).params
        = ("L" ++ toString 12, "") :: sortParams [("utm_source", "raycast")] := by
  constructor
  · decide
  · exact anchor_first_when_others_greater.1
      ⟨"https://sg.example/x", [("utm_source", "raycast")]⟩ 12 (by decide)

/-- Modelled from the spec: the markdown helpers of src/markdown (imported at
line 15) are not included in src; quoteBlock is modelled as a minimal Markdown
quote wrapper embedding its argument verbatim. -/
def quoteBlock (s : String) : String := "> " ++ s

/-- Modelled from the spec: codeBlock from src/markdown, a minimal fenced code
block embedding its argument verbatim. -/
def codeBlock (s : String) : String := "```\n" ++ s ++ "\n```"

/-- Modelled from the spec: bold from src/markdown. -/
def bold (s : String) : String := "**" ++ s ++ "**"

/-- String.prototype.endsWith at the character-list level. -/
def strEndsWith (s suffix : String) : Bool := suffix.data.isSuffixOf s.data

/-- The blob shape returned by the file-contents query (line 14, fields used at
lines 368-386). -/
structure BlobContents where
  path : String
  content : String
  binary : Bool
  byteSize : Nat
deriving DecidableEq

/-- Decimal rendering of byteSize/1024 as the template string at line 379 prints
it: dividing by 1024 is exact in binary floating point, the quotient has a
power-of-two denominator, so its decimal expansion is finite with at most ten
fractional digits (1/1024 = 9765625/10000000000), and JavaScript prints doubles
of this shape as the exact expansion with trailing zeros dropped. -/
def kbString (byteSize : Nat) : String :=
  let intPart := toString (byteSize / 1024)
  let frac := byteSize % 1024
  if frac = 0 then intPart
  else
    let digits := toString (frac * 9765625)
    let padded := List.replicate (10 - digits.length) '0' ++ digits.data
    intPart ++ "." ++ String.mk ((padded.reverse.dropWhile fun c => c == '0').reverse)

/-- renderBlob (lines 368-386). The size guard byteSize/1024 > 50 is the exact
comparison byteSize > 51200, since division by 1024 is exact for doubles. -/
def renderBlob : Option BlobContents → String
  | none => quoteBlock "Blob not found"
  | some blob =>
      if blob.binary then
        quoteBlock "File preview is not yet supported for binary files."
      else if blob.content ≠ "" then
        if 51200 < blob.byteSize then
          quoteBlock ("File too large to render (" ++ kbString blob.byteSize ++ "KB)")
        else if strEndsWith blob.path ".md" then blob.content
        else codeBlock blob.content
      else quoteBlock "No content found"

/-- The observable states of the lazy file-contents query consumed at lines
431-460: not yet called, called but still pending, data available (with the
optional blob at repository.commit.blob), or failed. -/
inductive FetchState where
  | notCalled
  | pending
  | loaded (blob : Option BlobContents)
  | failed (err : String)

/-- The markdownContent assembled for a repo match (lines 426-443): the
description, plus the rendered README blob when the query returned data. No
branch consumes a query failure. -/
def repoDetailMarkdown (description : Option String) (fs : FetchState) : String :=
  match fs with
  | .loaded blob => description.getD "" ++ "\n\n---\n\n" ++ renderBlob blob
  | _ => description.getD ""

/-- The markdownContent assembled for a path match (lines 445-461): the path in
a code block, plus the rendered blob when the query returned data, or the quoted
failure message when it failed. -/
def pathDetailMarkdown (path : String) (fs : FetchState) : String :=
  match fs with
  | .loaded blob => codeBlock path ++ "\n\n---\n\n" ++ renderBlob blob
  | .failed e => codeBlock path ++ "\n\n---\n\n" ++ quoteBlock ("Failed to fetch file: " ++ e)
  | _ => codeBlock path ++ "\n\n---\n\n"

/-- The needle occurs somewhere in the haystack. -/
def Occurs (needle hay : String) : Prop := ∃ pre post, hay = pre ++ needle ++ post

theorem strAppendAssoc (a b c : String) : a ++ b ++ c = a ++ (b ++ c) := by
  cases a with
  | mk da =>
    cases b with
    | mk db =>
      cases c with
      | mk dc =>
        show String.mk (da ++ db ++ dc) = String.mk (da ++ (db ++ dc))
        rw [List.append_assoc]

theorem strAppendEmpty (s : String) : s ++ "" = s := by
  cases s with
  | mk d =>
    show String.mk (d ++ []) = String.mk d
    rw [List.append_nil]

theorem strLengthAppend (a b : String) : (a ++ b).length = a.length + b.length := by
  cases a with
  | mk da =>
    cases b with
    | mk db =>
      show (da ++ db).length = da.length + db.length
      rw [List.length_append]

/-- C6 counterexample: it is not the case that every markdown detail view with a
supplementary fetch renders a failed fetch inline — the repo view has no error
branch, so its markdown on a failed README fetch is just the description, which
cannot contain the three-character failure message. -/
theorem repo_fetch_error_not_rendered :
    ¬ (∀ (d : Option String) (p e : String),
        Occurs e (repoDetailMarkdown d (.failed e))
        ∧ Occurs e (pathDetailMarkdown p (.failed e))) := by
  intro h
  obtain ⟨pre, post, hEq⟩ := (h (some "d") "f" "XYZ").1
  have hL : repoDetailMarkdown (some "d") (.failed "XYZ") = "d" := rfl
  rw [hL] at hEq
  have hlen := congrArg String.length hEq
  rw [strLengthAppend, strLengthAppend] at hlen
  have h1 : ("d" : String).length = 1 := rfl
  have h3 : ("XYZ" : String).length = 3 := rfl
  rw [h1, h3] at hlen
  omega

/-- C6 (amended): the path detail view renders a failed fetch inline — the
failure message occurs in its markdown — while the repo detail view has no
error branch: on a failed README fetch its markdown is the description alone,
so the rest of the view still renders but the failure is silently omitted. -/
theorem path_error_inline_repo_error_omitted :
    ∀ (p e : String) (d : Option String),
      Occurs e (pathDetailMarkdown p (.failed e))
      ∧ repoDetailMarkdown d (.failed e) = d.getD "" := by
  intro p e d
  refine ⟨⟨codeBlock p ++ "\n\n---\n\n" ++ "> " ++ "Failed to fetch file: ", "", ?_⟩, rfl⟩
  rw [strAppendEmpty,
      strAppendAssoc (codeBlock p ++ "\n\n---\n\n" ++ "> ") "Failed to fetch file: " e,
      strAppendAssoc (codeBlock p ++ "\n\n---\n\n") "> "]
  rfl

/-- C9: rendering policy of renderBlob. Binary content is never rendered and
yields a fixed notice; nonempty non-binary content strictly above 50KB yields
the fixed too-large notice carrying the measured size in KB; content at a path
ending in .md is rendered as-is; other content is wrapped in a code block; an
absent blob or absent content yields a fixed not-found notice; and a 60KB file's
notice contains the digits 60. -/
theorem renderBlob_spec :
    ∀ b : BlobContents,
      renderBlob none = quoteBlock "Blob not found"
      ∧ (b.binary = true →
          renderBlob (some b) = quoteBlock "File preview is not yet supported for binary files.")
      ∧ (b.binary = false → b.content = "" →
          renderBlob (some b) = quoteBlock "No content found")
      ∧ (b.binary = false → b.content ≠ "" → 51200 < b.byteSize →
          renderBlob (some b)
            = quoteBlock ("File too large to render (" ++ kbString b.byteSize ++ "KB)"))
      ∧ (b.binary = false → b.content ≠ "" → b.byteSize ≤ 51200 →
          strEndsWith b.path ".md" = true → renderBlob (some b) = b.content)
      ∧ (b.binary = false → b.content ≠ "" → b.byteSize ≤ 51200 →
          strEndsWith b.path ".md" = false → renderBlob (some b) = codeBlock b.content)
      ∧ Occurs "60" (renderBlob (some ⟨"file.txt", "x", false, 61440⟩)) := by
  intro b
  refine ⟨rfl, ?_, ?_, ?_, ?_, ?_, ?_⟩
  · intro hbin
    simp [renderBlob, hbin]
  · intro hbin hc
    simp [renderBlob, hbin, hc]
  · intro hbin hc hs
    simp [renderBlob, hbin, hc, hs]
  · intro hbin hc hle hmd
    have hnl : ¬ (51200 < b.byteSize) := not_lt.mpr hle
    simp [renderBlob, hbin, hc, hnl, hmd]
  · intro hbin hc hle hmd
    have hnl : ¬ (51200 < b.byteSize) := not_lt.mpr hle
    simp [renderBlob, hbin, hc, hnl, hmd]
  · exact ⟨"> File too large to render (", "KB)", by decide⟩

/-- C9 witness: the rendering policy at concrete blobs, each branch's
hypotheses discharged by evaluation; the too-large branch is taken at the
spec's 60KB example. -/
theorem renderBlob_spec_witness :
    renderBlob (some ⟨"a.bin", "", true, 10⟩)
      = quoteBlock "File preview is not yet supported for binary files."
    ∧ renderBlob (some ⟨"a.txt", "", false, 10⟩) = quoteBlock "No content found"
    ∧ renderBlob (some ⟨"big.txt", "x", false, 61440⟩)
      = quoteBlock ("File too large to render (" ++ kbString 61440 ++ "KB)")
    ∧ renderBlob (some ⟨"README.md", "hello", false, 5⟩) = "hello"
    ∧ renderBlob (some ⟨"main.go", "code", false, 4⟩) = codeBlock "code" :=
  ⟨(renderBlob_spec ⟨"a.bin", "", true, 10⟩).2.1 rfl,
   (renderBlob_spec ⟨"a.txt", "", false, 10⟩).2.2.1 rfl rfl,
   (renderBlob_spec ⟨"big.txt", "x", false, 61440⟩).2.2.2.1 rfl (by decide) (by decide),
   (renderBlob_spec ⟨"README.md", "hello", false, 5⟩).2.2.2.2.1 rfl (by decide)
     (by decide) (by decide),
   (renderBlob_spec ⟨"main.go", "code", false, 4⟩).2.2.2.2.2.1 rfl (by decide)
     (by decide) (by decide)⟩

end SearchModel
